import Mathlib

/-!
# Verification of the LocalHub tool layer

A shallow embedding, in Lean 4, of the LocalHub local-business-search tools:

* the geographic helpers `calculateDistance` (haversine) and
  `expandViewportFromPoints` from `src/apps/localhub/server/types.ts` and the
  `search_places` route;
* the `search_places` POST handler (the route source embedded in
  `src/app/api/localhub/tools/search_places/tests/filter.test.ts`);
* the `get_directions` POST handler from
  `src/app/api/localhub/tools/get_directions/route.ts`;
* the Google-polyline decoder `decodePolyline` from
  `src/apps/localhub/web/src/component.tsx`.

Modelling conventions: JSON numbers are embedded as exact rationals (`ℚ`) at
the protocol boundary and cast to `ℝ` where the source performs trigonometry;
external collaborators (the curated-business store and the Google provider)
are parameters of the handler functions; a provider fetch that throws is
modelled as `Option.none`.
-/

namespace LocalHub

/-- JavaScript `Math.atan2 y x`: the two-argument arctangent, defined by
quadrant as in IEEE / the JS specification (library function of the source
language, used by `calculateDistance`). -/
noncomputable def atan2 (y x : ℝ) : ℝ :=
  if 0 < x then Real.arctan (y / x)
  else if x < 0 then
    (if 0 ≤ y then Real.arctan (y / x) + Real.pi else Real.arctan (y / x) - Real.pi)
  else
    (if 0 < y then Real.pi / 2 else if y < 0 then -(Real.pi / 2) else 0)

/-- Haversine great-circle distance in meters, translated from
`calculateDistance` in `src/apps/localhub/server/types.ts` (lines 112-130):
Earth radius 6,371,000 m, angles converted from degrees to radians. -/
noncomputable def calculateDistance (lat1 lng1 lat2 lng2 : ℝ) : ℝ :=
  let R : ℝ := 6371000
  let φ1 := lat1 * Real.pi / 180
  let φ2 := lat2 * Real.pi / 180
  let Δφ := (lat2 - lat1) * Real.pi / 180
  let Δlng := (lng2 - lng1) * Real.pi / 180
  let a := Real.sin (Δφ / 2) * Real.sin (Δφ / 2) +
    Real.cos φ1 * Real.cos φ2 * Real.sin (Δlng / 2) * Real.sin (Δlng / 2)
  let c := 2 * atan2 (Real.sqrt a) (Real.sqrt (1 - a))
  R * c

/-- The reference haversine formula exactly as the spec states it (§4.1):
`R · 2·atan2(√h, √(1-h))` with `h = sin²(Δφ/2) + cosφ₁·cosφ₂·sin²(Δλ/2)` and
mean Earth radius `R = 6,371,000` m. Written from the spec's words, to be
compared with the source-derived `calculateDistance`. -/
noncomputable def specHaversine (lat1 lng1 lat2 lng2 : ℝ) : ℝ :=
  let h := Real.sin ((lat2 - lat1) * Real.pi / 180 / 2) ^ 2 +
    Real.cos (lat1 * Real.pi / 180) * Real.cos (lat2 * Real.pi / 180) *
      Real.sin ((lng2 - lng1) * Real.pi / 180 / 2) ^ 2
  6371000 * (2 * atan2 (Real.sqrt h) (Real.sqrt (1 - h)))

/-- A latitude/longitude pair as it appears in the tool JSON payloads
(`LatLng` in `src/apps/localhub/server/types.ts`). JSON numbers are modelled
as exact rationals. -/
structure LatLng where
  lat : ℚ
  lng : ℚ
deriving DecidableEq

/-- The `viewport` bounding box of a `SearchData` payload
(`src/apps/localhub/server/types.ts`, lines 26-31). -/
structure Viewport where
  north : ℚ
  south : ℚ
  east : ℚ
  west : ℚ
deriving DecidableEq

/-- One iteration of the min/max scan loop inside `expandViewportFromPoints`
(the `for (const point of points)` body). -/
def viewportScanStep (acc : Viewport) (point : LatLng) : Viewport :=
  ⟨if point.lat > acc.north then point.lat else acc.north,
   if point.lat < acc.south then point.lat else acc.south,
   if point.lng > acc.east then point.lng else acc.east,
   if point.lng < acc.west then point.lng else acc.west⟩

/-- `expandViewportFromPoints` from the `search_places` route (embedded in
`src/app/api/localhub/tools/search_places/tests/filter.test.ts`, lines
210-236): `null` on an empty list, otherwise the min/max box over all points
expanded on each side by 5% of the corresponding span. -/
def expandViewportFromPoints : List LatLng → Option Viewport
  | [] => none
  | p :: ps =>
    let scanned := (p :: ps).foldl viewportScanStep ⟨p.lat, p.lat, p.lng, p.lng⟩
    let padLat := (scanned.north - scanned.south) * 0.05
    let padLng := (scanned.east - scanned.west) * 0.05
    some ⟨scanned.north + padLat, scanned.south - padLat,
          scanned.east + padLng, scanned.west - padLng⟩

theorem viewportScanStep_mono (acc : Viewport) (q : LatLng) :
    acc.north ≤ (viewportScanStep acc q).north ∧
      (viewportScanStep acc q).south ≤ acc.south ∧
      acc.east ≤ (viewportScanStep acc q).east ∧
      (viewportScanStep acc q).west ≤ acc.west := by
  unfold viewportScanStep
  refine ⟨?_, ?_, ?_, ?_⟩ <;> dsimp only <;> split <;> first | rfl | omega | linarith

theorem viewportScan_acc_mono (l : List LatLng) (acc : Viewport) :
    acc.north ≤ (l.foldl viewportScanStep acc).north ∧
      (l.foldl viewportScanStep acc).south ≤ acc.south ∧
      acc.east ≤ (l.foldl viewportScanStep acc).east ∧
      (l.foldl viewportScanStep acc).west ≤ acc.west := by
  induction l generalizing acc with
  | nil => exact ⟨le_refl _, le_refl _, le_refl _, le_refl _⟩
  | cons q rest ih =>
    have h1 := viewportScanStep_mono acc q
    have h2 := ih (viewportScanStep acc q)
    simp only [List.foldl_cons]
    exact ⟨h1.1.trans h2.1, h2.2.1.trans h1.2.1,
      h1.2.2.1.trans h2.2.2.1, h2.2.2.2.trans h1.2.2.2⟩

theorem viewportScanStep_covers (acc : Viewport) (q : LatLng) :
    q.lat ≤ (viewportScanStep acc q).north ∧
      (viewportScanStep acc q).south ≤ q.lat ∧
      q.lng ≤ (viewportScanStep acc q).east ∧
      (viewportScanStep acc q).west ≤ q.lng := by
  unfold viewportScanStep
  refine ⟨?_, ?_, ?_, ?_⟩ <;> dsimp only <;> split <;> first | rfl | linarith

theorem viewportScan_covers (l : List LatLng) (acc : Viewport) :
    ∀ q ∈ l, q.lat ≤ (l.foldl viewportScanStep acc).north ∧
      (l.foldl viewportScanStep acc).south ≤ q.lat ∧
      q.lng ≤ (l.foldl viewportScanStep acc).east ∧
      (l.foldl viewportScanStep acc).west ≤ q.lng := by
  induction l generalizing acc with
  | nil => intro q hq; cases hq
  | cons r rest ih =>
    intro q hq
    simp only [List.foldl_cons]
    rcases List.mem_cons.mp hq with hq | hq
    · subst hq
      have h1 := viewportScanStep_covers acc q
      have h2 := viewportScan_acc_mono rest (viewportScanStep acc q)
      exact ⟨h1.1.trans h2.1, h2.2.1.trans h1.2.1,
        h1.2.2.1.trans h2.2.2.1, h2.2.2.2.trans h1.2.2.2⟩
    · exact ih (viewportScanStep acc r) q hq

/-- C8: the bounding-box computation returns `none` for an empty list of
points, and for a non-empty list returns a box whose sides enclose every
input point (min/max latitudes and longitudes, each expanded outward by 5% of
the corresponding span). -/
theorem claim_C8_expandViewport_bounds :
    expandViewportFromPoints [] = none ∧
    ∀ p ps, ∃ b, expandViewportFromPoints (p :: ps) = some b ∧
      ∀ q ∈ p :: ps, q.lat ≤ b.north ∧ b.south ≤ q.lat ∧
        q.lng ≤ b.east ∧ b.west ≤ q.lng := by
  refine ⟨rfl, ?_⟩
  intro p ps
  refine ⟨_, rfl, ?_⟩
  intro q hq
  have hcov := viewportScan_covers (p :: ps) ⟨p.lat, p.lat, p.lng, p.lng⟩ q hq
  have hp := viewportScan_covers (p :: ps) ⟨p.lat, p.lat, p.lng, p.lng⟩ p
    (List.mem_cons_self p ps)
  set s := (p :: ps).foldl viewportScanStep ⟨p.lat, p.lat, p.lng, p.lng⟩ with hs
  have hns : s.south ≤ s.north := hp.2.1.trans hp.1
  have hew : s.west ≤ s.east := hp.2.2.2.trans hp.2.2.1
  have hpadLat : (0 : ℚ) ≤ (s.north - s.south) * 0.05 := by
    have : (0 : ℚ) ≤ s.north - s.south := by linarith
    positivity
  have hpadLng : (0 : ℚ) ≤ (s.east - s.west) * 0.05 := by
    have : (0 : ℚ) ≤ s.east - s.west := by linarith
    positivity
  dsimp only
  exact ⟨by linarith [hcov.1], by linarith [hcov.2.1],
    by linarith [hcov.2.2.1], by linarith [hcov.2.2.2]⟩

theorem claim_C8_witness :
    ∃ b, expandViewportFromPoints [⟨0, 0⟩, ⟨1, 1⟩] = some b ∧
      ∀ q ∈ [LatLng.mk 0 0, LatLng.mk 1 1], q.lat ≤ b.north ∧ b.south ≤ q.lat ∧
        q.lng ≤ b.east ∧ b.west ≤ q.lng :=
  claim_C8_expandViewport_bounds.2 ⟨0, 0⟩ [⟨1, 1⟩]

/-- C7: `calculateDistance` equals the spec's reference haversine formula,
vanishes on identical coordinates, and is symmetric in its two endpoints. -/
theorem claim_C7_calculateDistance_haversine :
    (∀ lat1 lng1 lat2 lng2 : ℝ,
      calculateDistance lat1 lng1 lat2 lng2 = specHaversine lat1 lng1 lat2 lng2) ∧
    (∀ lat lng : ℝ, calculateDistance lat lng lat lng = 0) ∧
    (∀ lat1 lng1 lat2 lng2 : ℝ,
      calculateDistance lat1 lng1 lat2 lng2 = calculateDistance lat2 lng2 lat1 lng1) := by
  have hformula : ∀ lat1 lng1 lat2 lng2 : ℝ,
      calculateDistance lat1 lng1 lat2 lng2 = specHaversine lat1 lng1 lat2 lng2 := by
    intro lat1 lng1 lat2 lng2
    unfold calculateDistance specHaversine
    simp only [pow_two]
    ring_nf
  refine ⟨hformula, ?_, ?_⟩
  · intro lat lng
    unfold calculateDistance
    simp only [sub_self, zero_mul, zero_div, Real.sin_zero, mul_zero, zero_add,
      add_zero, Real.sqrt_zero, sub_zero, Real.sqrt_one]
    have h1 : atan2 0 1 = 0 := by
      unfold atan2
      rw [if_pos one_pos]
      simp [Real.arctan_zero]
    rw [h1]
    ring
  · intro lat1 lng1 lat2 lng2
    unfold calculateDistance
    have hlat : (lat1 - lat2) * Real.pi / 180 / 2 = -((lat2 - lat1) * Real.pi / 180 / 2) := by
      ring
    have hlng : (lng1 - lng2) * Real.pi / 180 / 2 = -((lng2 - lng1) * Real.pi / 180 / 2) := by
      ring
    simp only [hlat, hlng, Real.sin_neg]
    ring_nf

/-! ## The `search_places` tool

The route source is embedded in
`src/app/api/localhub/tools/search_places/tests/filter.test.ts` (lines
165-395); line references below are into that file. -/

/-- The fields of a Google Place Details response read by the route: the
top-level `status` and the optional `result`. `geometry?.location` is
modelled as the optional `location` field; a response whose `geometry` is
absent and one whose `geometry.location` is absent are both `location =
none`, which the route treats identically. -/
structure PlaceDetailsResult where
  place_id : String
  name : String
  formatted_address : Option String
  location : Option LatLng
  rating : Option ℚ
  user_ratings_total : Option ℚ
  formatted_phone_number : Option String

/-- A place-details provider response (status plus optional result). -/
structure PlaceDetailsResp where
  status : String
  result : Option PlaceDetailsResult

/-- A `Place` of the search response (`src/apps/localhub/server/types.ts`,
lines 8-20); the nested `provider` object is flattened into
`providerSource`/`providerPlaceId`. The provider-side
`formatted_phone_number` above is never read by the search route, which is
what makes its `phone := none` an invariant. -/
structure Place where
  id : String
  name : String
  address : String
  phone : Option String
  rating : Option ℚ
  userRatingsTotal : Option ℚ
  location : LatLng
  providerSource : String
  providerPlaceId : Option String

/-- `SearchData` from `src/apps/localhub/server/types.ts` (lines 22-32). -/
structure SearchData where
  query : String
  resolvedArea : String
  center : LatLng
  viewport : Viewport

/-- The HTTP-level outcome of a tool route, following
`src/apps/localhub/server/utils.ts`: `badRequest` is the 400 response,
`serverError` 500, `externalError` 502, and `ok` a 200 JSON payload. -/
inductive ToolResponse (α : Type) where
  | ok (data : α)
  | badRequest (msg : String)
  | serverError (msg : String)
  | externalError (msg : String)

/-- The HTTP status code of a `ToolResponse`, as set in
`src/apps/localhub/server/utils.ts`. -/
def ToolResponse.statusCode {α : Type} : ToolResponse α → ℕ
  | .ok _ => 200
  | .badRequest _ => 400
  | .serverError _ => 500
  | .externalError _ => 502

/-- The `center` argument of a `search_places` request: an object whose
`lat`/`lng` fields are numbers or absent (non-numeric field values are
outside this model). -/
structure CenterArg where
  lat : Option ℚ
  lng : Option ℚ

/-- The parsed JSON body of a `search_places` request. The `where` argument
is named `whereArg` because `where` is a Lean keyword; the `language`
argument is only forwarded inside provider URLs and is not modelled. -/
structure SearchBody where
  query : Option String
  whereArg : Option String
  center : Option CenterArg
  radius_m : Option ℚ

/-- The external collaborators of the `search_places` route: whether
`GOOGLE_PLACES_API_KEY` is configured, the geocoder (`none` models a fetch
error, a non-OK status or zero results, all of which make `geocodeWhere`
return `null`), the curated allow-list returned by `getAllBusinessPlaceIds`,
and the per-id details provider (`none` models a fetch that throws). -/
structure SearchEnv where
  apiKey : Bool
  geocode : String → Option LatLng
  store : List String
  details : String → Option PlaceDetailsResp

/-- The outcome of one `search_places` invocation together with the provider
calls it issued (used to state the no-geocoding / no-details-call claims). -/
structure SearchTrace where
  response : ToolResponse (SearchData × List Place)
  geocodeCalls : List String
  detailsCalls : List String

/-- JavaScript truthiness of the route's center test (line 256):
`center && typeof center === 'object' && center.lat && center.lng`. A numeric
field is truthy iff it is non-zero. -/
def centerTruthy : Option CenterArg → Bool
  | some c =>
    (match c.lat with | some a => decide (a ≠ 0) | none => false) &&
    (match c.lng with | some b => decide (b ≠ 0) | none => false)
  | none => false

/-- The radius clamp of route line 269:
`Math.max(100, Math.min(50000, radius_m))` with the 40000 default. -/
def clampRadius (radius_m : Option ℚ) : ℚ :=
  max 100 (min 50000 (radius_m.getD 40000))

/-- The fixed `±0.01°` viewport around the origin (route lines 286-291 and
368-373), used when no places are available. -/
def fallbackViewport (c : LatLng) : Viewport :=
  ⟨c.lat + 0.01, c.lat - 0.01, c.lng + 0.01, c.lng - 0.01⟩

/-- The distance the route computes for a candidate place (line 320):
`calculateDistance` on origin and place geometry, rationals cast to reals at
the trigonometry boundary. -/
noncomputable def distToPlace (origin loc : LatLng) : ℝ :=
  calculateDistance (origin.lat : ℝ) (origin.lng : ℝ) (loc.lat : ℝ) (loc.lng : ℝ)

/-- The per-id closure of the `detailsPromises` fan-out (route lines
302-354): fetch details for one curated id and return the built `Place` with
its distance when the fetch succeeded with status OK, a result, a geometry
location and a distance within the radius; `none` (the place is skipped)
otherwise. The `try/catch` around the fetch is the `env.details = none`
case. -/
noncomputable def fetchPlace (env : SearchEnv) (origin : LatLng) (searchRadius : ℚ)
    (placeId : String) : Option (Place × ℝ) :=
  match env.details placeId with
  | none => none
  | some resp =>
    if resp.status = "OK" then
      match resp.result with
      | some place =>
        match place.location with
        | some loc =>
          let distance := distToPlace origin loc
          if distance ≤ ((searchRadius : ℚ) : ℝ) then
            some (⟨place.place_id, place.name, place.formatted_address.getD "",
              none, place.rating, place.user_ratings_total, loc,
              "google_places", some place.place_id⟩, distance)
          else none
        | none => none
      | none => none
    else none

/-- Steps 3-5 of the route on a non-empty allow-list (lines 300-363): the
fan-out over curated ids, the radius filter (inside `fetchPlace`), the
ascending sort by distance and the projection that drops the distance. -/
noncomputable def searchResultPlaces (env : SearchEnv) (origin : LatLng)
    (searchRadius : ℚ) : List Place :=
  ((env.store.filterMap (fetchPlace env origin searchRadius)).mergeSort
    (fun a b => decide (a.2 ≤ b.2))).map Prod.fst

/-- The body of the `search_places` POST handler after origin resolution
(route lines 269-387): radius clamp, API-key check, empty-allow-list fast
path with the fixed viewport, and otherwise the fan-out / filter / sort /
viewport pipeline. -/
noncomputable def searchWithOrigin (q area : String) (origin : LatLng)
    (radius_m : Option ℚ) (env : SearchEnv) (geocodeCalls : List String) :
    SearchTrace :=
  let searchRadius := clampRadius radius_m
  if env.apiKey = false then
    ⟨.serverError "GOOGLE_PLACES_API_KEY not configured", geocodeCalls, []⟩
  else if env.store = [] then
    ⟨.ok (⟨q, area, origin, fallbackViewport origin⟩, []), geocodeCalls, []⟩
  else
    let filteredPlaces := searchResultPlaces env origin searchRadius
    let viewport := (expandViewportFromPoints (filteredPlaces.map Place.location)).getD
      (fallbackViewport origin)
    ⟨.ok (⟨q, area, origin, viewport⟩, filteredPlaces), geocodeCalls, env.store⟩

/-- The `else if (where)` branch of origin resolution (route lines 258-267):
geocode the free text (which first requires the API key inside
`geocodeWhere`, whose missing-key throw is caught by the outer handler as a
500), fail with the 400 resolution error when geocoding yields nothing. -/
noncomputable def searchPlacesWhereBranch (q : String) (body : SearchBody)
    (env : SearchEnv) : SearchTrace :=
  match body.whereArg with
  | some w =>
    if w = "" then
      ⟨.badRequest "Either center coordinates or where location string must be provided",
        [], []⟩
    else if env.apiKey = false then
      ⟨.serverError "GOOGLE_PLACES_API_KEY not configured", [], []⟩
    else
      match env.geocode w with
      | some loc => searchWithOrigin q w loc body.radius_m env [w]
      | none =>
        ⟨.badRequest "Could not resolve a search area from the provided location",
          [w], []⟩
  | none =>
    ⟨.badRequest "Either center coordinates or where location string must be provided",
      [], []⟩

/-- The `search_places` POST handler (route lines 238-395): query validation,
origin resolution (truthy center verbatim, else geocoded `where`, else 400),
then `searchWithOrigin`. The outer `catch` never fires in this model because
the parsed body is given directly. -/
noncomputable def searchPlacesPOST (body : SearchBody) (env : SearchEnv) : SearchTrace :=
  match body.query with
  | none => ⟨.badRequest "Missing required parameter: query", [], []⟩
  | some q =>
    if q = "" then ⟨.badRequest "Missing required parameter: query", [], []⟩
    else if centerTruthy body.center then
      searchWithOrigin q ""
        ⟨(body.center.bind CenterArg.lat).getD 0, (body.center.bind CenterArg.lng).getD 0⟩
        body.radius_m env []
    else searchPlacesWhereBranch q body env

theorem fetchPlace_spec (env : SearchEnv) (origin : LatLng) (r : ℚ) (placeId : String)
    (x : Place × ℝ) (h : fetchPlace env origin r placeId = some x) :
    x.1.phone = none ∧ x.2 = distToPlace origin x.1.location ∧ x.2 ≤ (r : ℝ) := by
  unfold fetchPlace at h
  dsimp only at h
  repeat' split at h
  any_goals exact Option.noConfusion h
  injection h with h
  subst h
  exact ⟨rfl, rfl, by assumption⟩

theorem searchResultPlaces_mem (env : SearchEnv) (origin : LatLng) (r : ℚ)
    (p : Place) (hp : p ∈ searchResultPlaces env origin r) :
    p.phone = none ∧ distToPlace origin p.location ≤ (r : ℝ) := by
  unfold searchResultPlaces at hp
  rcases List.mem_map.mp hp with ⟨x, hx, rfl⟩
  rcases List.mem_filterMap.mp (List.mem_mergeSort.mp hx) with ⟨placeId, _, hfetch⟩
  have hspec := fetchPlace_spec env origin r placeId x hfetch
  exact ⟨hspec.1, hspec.2.1 ▸ hspec.2.2⟩

theorem searchResultPlaces_sorted (env : SearchEnv) (origin : LatLng) (r : ℚ) :
    (searchResultPlaces env origin r).Pairwise
      (fun p1 p2 => distToPlace origin p1.location ≤ distToPlace origin p2.location) := by
  unfold searchResultPlaces
  rw [List.pairwise_map]
  have hsorted : (List.mergeSort (env.store.filterMap (fetchPlace env origin r))
      (fun a b => decide (a.2 ≤ b.2))).Pairwise (fun a b => decide (a.2 ≤ b.2)) :=
    List.sorted_mergeSort
      (fun a b c hab hbc => by
        simp only [decide_eq_true_eq] at *
        exact le_trans hab hbc)
      (fun a b => by
        simp only [Bool.or_eq_true, decide_eq_true_eq]
        exact le_total a.2 b.2)
      _
  refine List.Pairwise.imp_of_mem ?_ hsorted
  intro a b ha hb hab
  rcases List.mem_filterMap.mp (List.mem_mergeSort.mp ha) with ⟨ida, _, hfa⟩
  rcases List.mem_filterMap.mp (List.mem_mergeSort.mp hb) with ⟨idb, _, hfb⟩
  have hda := (fetchPlace_spec env origin r ida a hfa).2.1
  have hdb := (fetchPlace_spec env origin r idb b hfb).2.1
  simp only [decide_eq_true_eq] at hab
  rw [hda, hdb] at hab
  exact hab

theorem searchWithOrigin_response_ok (q area : String) (origin : LatLng)
    (radius_m : Option ℚ) (env : SearchEnv) (gcalls : List String)
    (s : SearchData) (places : List Place)
    (h : (searchWithOrigin q area origin radius_m env gcalls).response = .ok (s, places)) :
    env.apiKey = true ∧ s.query = q ∧ s.resolvedArea = area ∧ s.center = origin ∧
    (env.store = [] → places = [] ∧ s.viewport = fallbackViewport origin ∧
      (searchWithOrigin q area origin radius_m env gcalls).detailsCalls = []) ∧
    (env.store ≠ [] → places = searchResultPlaces env origin (clampRadius radius_m)) := by
  unfold searchWithOrigin at h ⊢
  by_cases hkey : env.apiKey = false
  · rw [if_pos hkey] at h
    cases h
  rw [if_neg hkey] at h ⊢
  by_cases hstore : env.store = []
  · rw [if_pos hstore] at h ⊢
    cases ToolResponse.ok.inj h
    exact ⟨Bool.not_eq_false _ ▸ hkey, rfl, rfl, rfl,
      fun _ => ⟨rfl, rfl, rfl⟩, fun hc => absurd hstore hc⟩
  · rw [if_neg hstore] at h ⊢
    cases ToolResponse.ok.inj h
    exact ⟨Bool.not_eq_false _ ▸ hkey, rfl, rfl, rfl,
      fun hc => absurd hc hstore, fun _ => rfl⟩

theorem searchPlacesWhereBranch_response_ok (q : String) (body : SearchBody)
    (env : SearchEnv) (s : SearchData) (places : List Place)
    (h : (searchPlacesWhereBranch q body env).response = .ok (s, places)) :
    env.apiKey = true ∧ s.query = q ∧ s.resolvedArea = body.whereArg.getD "" ∧
    (env.store = [] → places = [] ∧ s.viewport = fallbackViewport s.center ∧
      (searchPlacesWhereBranch q body env).detailsCalls = []) ∧
    (env.store ≠ [] → places = searchResultPlaces env s.center (clampRadius body.radius_m)) := by
  unfold searchPlacesWhereBranch at h ⊢
  rcases hw : body.whereArg with _ | w
  · rw [hw] at h
    dsimp only at h
    cases h
  rw [hw] at h
  dsimp only at h
  dsimp only
  by_cases hw2 : w = ""
  · rw [if_pos hw2] at h
    cases h
  rw [if_neg hw2] at h ⊢
  by_cases hkey : env.apiKey = false
  · rw [if_pos hkey] at h
    cases h
  rw [if_neg hkey] at h ⊢
  rcases hg : env.geocode w with _ | loc
  · simp [hg] at h
  rw [hg] at h
  dsimp only at h
  have hinv := searchWithOrigin_response_ok _ _ _ _ _ _ _ _ h
  rcases hinv with ⟨hkey2, hsq, hsa, hsc, hemp, hnon⟩
  subst hsc
  exact ⟨hkey2, hsq, hsa, fun hst => hemp hst, fun hst => hnon hst⟩

theorem searchPlacesPOST_response_ok (body : SearchBody) (env : SearchEnv)
    (s : SearchData) (places : List Place)
    (h : (searchPlacesPOST body env).response = .ok (s, places)) :
    env.apiKey = true ∧ s.query = body.query.getD "" ∧
    s.resolvedArea = (if centerTruthy body.center then "" else body.whereArg.getD "") ∧
    (env.store = [] → places = [] ∧ s.viewport = fallbackViewport s.center ∧
      (searchPlacesPOST body env).detailsCalls = []) ∧
    (env.store ≠ [] → places = searchResultPlaces env s.center (clampRadius body.radius_m)) := by
  unfold searchPlacesPOST at h ⊢
  rcases hq : body.query with _ | q
  · rw [hq] at h
    dsimp only at h
    cases h
  rw [hq] at h
  dsimp only at h
  dsimp only
  by_cases hq2 : q = ""
  · rw [if_pos hq2] at h
    cases h
  rw [if_neg hq2] at h ⊢
  by_cases hct : centerTruthy body.center = true
  · rw [if_pos hct] at h ⊢
    rw [if_pos hct]
    have hinv := searchWithOrigin_response_ok _ _ _ _ _ _ _ _ h
    rcases hinv with ⟨hkey, hsq, hsa, hsc, hemp, hnon⟩
    rw [hsc]
    exact ⟨hkey, hsq, hsa, fun hst => hemp hst, fun hst => hnon hst⟩
  · rw [if_neg hct] at h ⊢
    rw [if_neg hct]
    have hinv := searchPlacesWhereBranch_response_ok _ _ _ _ _ h
    rcases hinv with ⟨hkey, hsq, hsa, hemp, hnon⟩
    exact ⟨hkey, hsq, hsa, hemp, hnon⟩

theorem searchWithOrigin_ok (q area : String) (origin : LatLng) (radius : Option ℚ)
    (env : SearchEnv) (gcalls : List String) (hkey : env.apiKey = true) :
    ∃ s places, (searchWithOrigin q area origin radius env gcalls).response = .ok (s, places) := by
  unfold searchWithOrigin
  dsimp only
  rw [if_neg (by simp [hkey])]
  by_cases hstore : env.store = []
  · rw [if_pos hstore]
    exact ⟨_, _, rfl⟩
  · rw [if_neg hstore]
    exact ⟨_, _, rfl⟩

theorem searchPlacesPOST_ok_of_resolved (body : SearchBody) (env : SearchEnv) (q : String)
    (hq : body.query = some q) (hq2 : q ≠ "") (hkey : env.apiKey = true)
    (hres : centerTruthy body.center = true ∨
      (centerTruthy body.center = false ∧ ∃ w loc, body.whereArg = some w ∧ w ≠ "" ∧
        env.geocode w = some loc)) :
    ∃ s places, (searchPlacesPOST body env).response = .ok (s, places) := by
  unfold searchPlacesPOST
  rw [hq]
  dsimp only
  rw [if_neg hq2]
  rcases hres with hct | ⟨hct, w, loc, hw, hw2, hg⟩
  · rw [if_pos hct]
    exact searchWithOrigin_ok _ _ _ _ _ _ hkey
  · rw [if_neg (by simp [hct])]
    unfold searchPlacesWhereBranch
    rw [hw]
    dsimp only
    rw [if_neg hw2, if_neg (by simp [hkey]), hg]
    dsimp only
    exact searchWithOrigin_ok _ _ _ _ _ _ hkey

/-- Whether the details lookup for a curated id yields a usable place: the
fetch does not throw, the status is OK, and a result with a geometry
location is present. These are exactly the per-id failure cases that the
fan-out silently skips. -/
def fetchUsable (env : SearchEnv) (placeId : String) : Bool :=
  match env.details placeId with
  | none => false
  | some resp =>
    (resp.status == "OK") &&
      (match resp.result with
       | some place => place.location.isSome
       | none => false)

theorem fetchPlace_eq_none (env : SearchEnv) (origin : LatLng) (r : ℚ)
    (placeId : String) (h : fetchUsable env placeId = false) :
    fetchPlace env origin r placeId = none := by
  unfold fetchUsable at h
  unfold fetchPlace
  rcases hd : env.details placeId with _ | resp
  · rfl
  rw [hd] at h
  dsimp only at h
  dsimp only
  by_cases hst : resp.status = "OK"
  · simp only [hst, beq_self_eq_true, Bool.true_and] at h
    rw [if_pos hst]
    rcases hres : resp.result with _ | place
    · rfl
    dsimp only
    simp only [hres] at h
    rcases hloc : place.location with _ | loc
    · rfl
    rw [hloc] at h
    simp at h
  · rw [if_neg hst]

theorem fetchPlace_store_irrel (env : SearchEnv) (st : List String) (origin : LatLng)
    (r : ℚ) : fetchPlace { env with store := st } origin r = fetchPlace env origin r := rfl

theorem filterMap_filter_fetchUsable (env : SearchEnv) (origin : LatLng) (r : ℚ)
    (l : List String) :
    (l.filter (fetchUsable env)).filterMap (fetchPlace env origin r) =
      l.filterMap (fetchPlace env origin r) := by
  induction l with
  | nil => rfl
  | cons a l ih =>
    by_cases ha : fetchUsable env a = true
    · rw [List.filter_cons_of_pos ha]
      rcases hfa : fetchPlace env origin r a with _ | b
      · rw [List.filterMap_cons_none hfa, List.filterMap_cons_none hfa, ih]
      · rw [List.filterMap_cons_some hfa, List.filterMap_cons_some hfa, ih]
    · have ha' : fetchUsable env a = false := by simpa using ha
      rw [List.filter_cons_of_neg (by simp [ha']),
        List.filterMap_cons_none (fetchPlace_eq_none env origin r a ha'), ih]

theorem searchWithOrigin_filter_usable (q area : String) (origin : LatLng)
    (radius : Option ℚ) (env : SearchEnv) (gcalls : List String) :
    (searchWithOrigin q area origin radius
      { env with store := env.store.filter (fetchUsable env) } gcalls).response =
    (searchWithOrigin q area origin radius env gcalls).response := by
  unfold searchWithOrigin
  dsimp only
  by_cases hkey : env.apiKey = false
  · rw [if_pos hkey, if_pos hkey]
  rw [if_neg hkey, if_neg hkey]
  by_cases hstore : env.store = []
  · rw [if_pos hstore, if_pos (by simp [hstore])]
  by_cases hfilter : env.store.filter (fetchUsable env) = []
  · rw [if_pos hfilter, if_neg hstore]
    have hplaces : searchResultPlaces env origin (clampRadius radius) = [] := by
      unfold searchResultPlaces
      rw [← filterMap_filter_fetchUsable env origin (clampRadius radius) env.store, hfilter]
      simp
    rw [hplaces]
    rfl
  · rw [if_neg hfilter, if_neg hstore]
    have hplaces : searchResultPlaces { env with store := env.store.filter (fetchUsable env) }
        origin (clampRadius radius) = searchResultPlaces env origin (clampRadius radius) := by
      unfold searchResultPlaces
      dsimp only
      rw [fetchPlace_store_irrel env (env.store.filter (fetchUsable env)) origin
        (clampRadius radius)]
      rw [filterMap_filter_fetchUsable env origin (clampRadius radius) env.store]
    rw [hplaces]

theorem searchPlacesPOST_filter_usable (body : SearchBody) (env : SearchEnv) :
    (searchPlacesPOST body { env with store := env.store.filter (fetchUsable env) }).response =
      (searchPlacesPOST body env).response := by
  unfold searchPlacesPOST
  rcases body.query with _ | q
  · rfl
  dsimp only
  by_cases hq2 : q = ""
  · rw [if_pos hq2, if_pos hq2]
  rw [if_neg hq2, if_neg hq2]
  by_cases hct : centerTruthy body.center = true
  · rw [if_pos hct, if_pos hct]
    exact searchWithOrigin_filter_usable _ _ _ _ env _
  rw [if_neg hct, if_neg hct]
  unfold searchPlacesWhereBranch
  rcases body.whereArg with _ | w
  · rfl
  dsimp only
  by_cases hw2 : w = ""
  · rw [if_pos hw2, if_pos hw2]
  rw [if_neg hw2, if_neg hw2]
  by_cases hkey : env.apiKey = false
  · rw [if_pos hkey, if_pos hkey]
  rw [if_neg hkey, if_neg hkey]
  rcases env.geocode w with _ | loc
  · rfl
  dsimp only
  exact searchWithOrigin_filter_usable _ _ _ _ env _

/-- C1 is refuted at `center = {lat: 0, lng: 5}`: although both fields are
numeric, JavaScript truthiness treats `lat: 0` as absent, so the route
ignores the center and fails with the missing-location 400 ValidationError
instead of searching from `(0, 5)`. -/
theorem claim_C1_counterexample :
    (searchPlacesPOST ⟨some "coffee", none, some ⟨some 0, some 5⟩, none⟩
      ⟨true, fun _ => none, [], fun _ => none⟩).response =
      .badRequest "Either center coordinates or where location string must be provided" ∧
    ((searchPlacesPOST ⟨some "coffee", none, some ⟨some 0, some 5⟩, none⟩
      ⟨true, fun _ => none, [], fun _ => none⟩).response).statusCode = 400 :=
  ⟨rfl, rfl⟩

/-- C1 (amended): a center whose numeric `lat` and `lng` are both truthy
(non-zero) is used verbatim as the search origin, with no geocoding and no
ValidationError; a center with `lat = 0` or `lng = 0` is instead ignored by
the route's truthiness test and the request falls back to `where` /
ValidationError. -/
theorem claim_C1_center_verbatim (q : String) (la ln : ℚ) (wArg : Option String)
    (radius : Option ℚ) (env : SearchEnv) (hq : q ≠ "") (hla : la ≠ 0) (hln : ln ≠ 0) :
    (searchPlacesPOST ⟨some q, wArg, some ⟨some la, some ln⟩, radius⟩ env).geocodeCalls = [] ∧
    (∀ msg, (searchPlacesPOST ⟨some q, wArg, some ⟨some la, some ln⟩, radius⟩ env).response ≠
      .badRequest msg) ∧
    (∀ s places,
      (searchPlacesPOST ⟨some q, wArg, some ⟨some la, some ln⟩, radius⟩ env).response =
        .ok (s, places) → s.center = ⟨la, ln⟩) := by
  have hct : centerTruthy (some ⟨some la, some ln⟩) = true := by
    simp [centerTruthy, hla, hln]
  unfold searchPlacesPOST
  dsimp only
  rw [if_neg hq, if_pos hct]
  unfold searchWithOrigin
  dsimp only
  by_cases hkey : env.apiKey = false
  · rw [if_pos hkey]
    exact ⟨rfl, fun msg h => ToolResponse.noConfusion h,
      fun s places h => absurd h (fun h => ToolResponse.noConfusion h)⟩
  rw [if_neg hkey]
  by_cases hstore : env.store = []
  · rw [if_pos hstore]
    refine ⟨rfl, fun msg h => ToolResponse.noConfusion h, fun s places h => ?_⟩
    simp only [ToolResponse.ok.injEq, Prod.mk.injEq] at h
    rw [← h.1]
    rfl
  · rw [if_neg hstore]
    refine ⟨rfl, fun msg h => ToolResponse.noConfusion h, fun s places h => ?_⟩
    simp only [ToolResponse.ok.injEq, Prod.mk.injEq] at h
    rw [← h.1]
    rfl

theorem claim_C1_witness :
    (searchPlacesPOST ⟨some "coffee", none, some ⟨some 1, some 1⟩, none⟩
      ⟨true, fun _ => none, [], fun _ => none⟩).geocodeCalls = [] ∧
    (∀ msg, (searchPlacesPOST ⟨some "coffee", none, some ⟨some 1, some 1⟩, none⟩
      ⟨true, fun _ => none, [], fun _ => none⟩).response ≠ .badRequest msg) ∧
    (∀ s places,
      (searchPlacesPOST ⟨some "coffee", none, some ⟨some 1, some 1⟩, none⟩
        ⟨true, fun _ => none, [], fun _ => none⟩).response = .ok (s, places) →
        s.center = ⟨1, 1⟩) :=
  claim_C1_center_verbatim "coffee" 1 1 none none ⟨true, fun _ => none, [], fun _ => none⟩
    (by decide) (by decide) (by decide)

/-- C2: every successful `search_places` response lists its places in
ascending order of haversine distance from the resolved origin, and every
listed place lies within the clamped radius
`max 100 (min 50000 (radius_m ?? 40000))`. -/
theorem claim_C2_sorted_within_radius (body : SearchBody) (env : SearchEnv)
    (s : SearchData) (places : List Place)
    (h : (searchPlacesPOST body env).response = .ok (s, places)) :
    places.Pairwise (fun p1 p2 =>
      distToPlace s.center p1.location ≤ distToPlace s.center p2.location) ∧
    ∀ p ∈ places, distToPlace s.center p.location ≤ ((clampRadius body.radius_m : ℚ) : ℝ) := by
  have hinv := searchPlacesPOST_response_ok body env s places h
  rcases hinv with ⟨-, -, -, hemp, hnon⟩
  by_cases hstore : env.store = []
  · rcases hemp hstore with ⟨rfl, -, -⟩
    exact ⟨List.Pairwise.nil, fun p hp => absurd hp (List.not_mem_nil p)⟩
  · rw [hnon hstore]
    exact ⟨searchResultPlaces_sorted env s.center (clampRadius body.radius_m),
      fun p hp => (searchResultPlaces_mem env s.center _ p hp).2⟩

theorem claim_C2_witness :
    ([] : List Place).Pairwise (fun p1 p2 =>
      distToPlace ⟨1, 1⟩ p1.location ≤ distToPlace ⟨1, 1⟩ p2.location) ∧
    ∀ p ∈ ([] : List Place),
      distToPlace ⟨1, 1⟩ p.location ≤ ((clampRadius none : ℚ) : ℝ) :=
  claim_C2_sorted_within_radius ⟨some "coffee", none, some ⟨some 1, some 1⟩, none⟩
    ⟨true, fun _ => none, [], fun _ => none⟩
    ⟨"coffee", "", ⟨1, 1⟩, fallbackViewport ⟨1, 1⟩⟩ [] rfl

/-- C3: for a request whose origin resolves (truthy center, or geocodable
`where` text) with a valid query and configured key, an empty curated
allow-list yields a success response with `places = []`, the fixed `±0.01°`
viewport around the origin, and no place-details provider call. -/
theorem claim_C3_empty_store (body : SearchBody) (env : SearchEnv) (q : String)
    (hstore : env.store = []) (hq : body.query = some q) (hq2 : q ≠ "")
    (hkey : env.apiKey = true)
    (hres : centerTruthy body.center = true ∨
      (centerTruthy body.center = false ∧ ∃ w loc, body.whereArg = some w ∧ w ≠ "" ∧
        env.geocode w = some loc)) :
    ∃ s, (searchPlacesPOST body env).response = .ok (s, []) ∧
      s.viewport = fallbackViewport s.center ∧
      (searchPlacesPOST body env).detailsCalls = [] := by
  rcases searchPlacesPOST_ok_of_resolved body env q hq hq2 hkey hres with ⟨s, places, h⟩
  have hinv := (searchPlacesPOST_response_ok body env s places h).2.2.2.1 hstore
  exact ⟨s, hinv.1 ▸ h, hinv.2.1, hinv.2.2⟩

theorem claim_C3_witness :
    ∃ s, (searchPlacesPOST ⟨some "coffee", none, some ⟨some 1, some 1⟩, none⟩
        ⟨true, fun _ => none, [], fun _ => none⟩).response = .ok (s, []) ∧
      s.viewport = fallbackViewport s.center ∧
      (searchPlacesPOST ⟨some "coffee", none, some ⟨some 1, some 1⟩, none⟩
        ⟨true, fun _ => none, [], fun _ => none⟩).detailsCalls = [] :=
  claim_C3_empty_store ⟨some "coffee", none, some ⟨some 1, some 1⟩, none⟩
    ⟨true, fun _ => none, [], fun _ => none⟩ "coffee" rfl rfl (by decide) rfl
    (Or.inl (by decide))

/-- C4: an individual curated id whose details fetch throws, has a non-OK
status, or lacks a geometry location is silently excluded: the response
equals the one computed from the allow-list restricted to the usable ids,
and a request with a resolved origin still gets a success response. -/
theorem claim_C4_partial_failure (body : SearchBody) (env : SearchEnv) :
    (searchPlacesPOST body { env with store := env.store.filter (fetchUsable env) }).response =
      (searchPlacesPOST body env).response ∧
    (∀ q, body.query = some q → q ≠ "" → env.apiKey = true →
      (centerTruthy body.center = true ∨
        (centerTruthy body.center = false ∧ ∃ w loc, body.whereArg = some w ∧ w ≠ "" ∧
          env.geocode w = some loc)) →
      ∃ s places, (searchPlacesPOST body env).response = .ok (s, places)) :=
  ⟨searchPlacesPOST_filter_usable body env,
   fun q hq hq2 hkey hres => searchPlacesPOST_ok_of_resolved body env q hq hq2 hkey hres⟩

theorem claim_C4_witness :
    ∃ s places,
      (searchPlacesPOST ⟨some "coffee", none, some ⟨some 1, some 1⟩, none⟩
        ⟨true, fun _ => none, ["A"], fun _ => none⟩).response = .ok (s, places) :=
  (claim_C4_partial_failure ⟨some "coffee", none, some ⟨some 1, some 1⟩, none⟩
    ⟨true, fun _ => none, ["A"], fun _ => none⟩).2 "coffee" rfl (by decide) rfl
    (Or.inl (by decide))

/-- C5 is refuted when both `center` and `where` are provided: the route
takes the center branch without recording the location text, so the
successful response carries `resolvedArea = ""` rather than the provided
`"Dublin"`. -/
theorem claim_C5_counterexample :
    ∃ s places,
      (searchPlacesPOST ⟨some "coffee", some "Dublin", some ⟨some 1, some 1⟩, none⟩
        ⟨true, fun _ => none, [], fun _ => none⟩).response = .ok (s, places) ∧
      s.resolvedArea = "" ∧ s.resolvedArea ≠ "Dublin" :=
  ⟨⟨"coffee", "", ⟨1, 1⟩, fallbackViewport ⟨1, 1⟩⟩, [], rfl, rfl, by decide⟩

/-- C5 (amended): in a successful response, `resolvedArea` equals the
request's `where` text only when the center branch was not taken (center
absent or not truthy) and so the text was geocoded; whenever the center is
used — in particular when both `center` and `where` are provided —
`resolvedArea` is the empty string. -/
theorem claim_C5_resolvedArea (body : SearchBody) (env : SearchEnv)
    (s : SearchData) (places : List Place)
    (h : (searchPlacesPOST body env).response = .ok (s, places)) :
    s.resolvedArea = if centerTruthy body.center then "" else body.whereArg.getD "" :=
  (searchPlacesPOST_response_ok body env s places h).2.2.1

theorem claim_C5_witness :
    (SearchData.resolvedArea ⟨"coffee", "Dublin", ⟨2, 3⟩, fallbackViewport ⟨2, 3⟩⟩) =
      if centerTruthy none then "" else (some "Dublin").getD "" :=
  claim_C5_resolvedArea ⟨some "coffee", some "Dublin", none, none⟩
    ⟨true, fun w => if w = "Dublin" then some ⟨2, 3⟩ else none, [], fun _ => none⟩
    ⟨"coffee", "Dublin", ⟨2, 3⟩, fallbackViewport ⟨2, 3⟩⟩ [] rfl

/-- C10: every place in a successful `search_places` response has a null
phone field; the search route never reads the provider's phone data. -/
theorem claim_C10_phone_null (body : SearchBody) (env : SearchEnv)
    (s : SearchData) (places : List Place)
    (h : (searchPlacesPOST body env).response = .ok (s, places)) :
    ∀ p ∈ places, p.phone = none := by
  have hinv := searchPlacesPOST_response_ok body env s places h
  rcases hinv with ⟨-, -, -, hemp, hnon⟩
  by_cases hstore : env.store = []
  · rcases hemp hstore with ⟨rfl, -, -⟩
    exact fun p hp => absurd hp (List.not_mem_nil p)
  · rw [hnon hstore]
    exact fun p hp => (searchResultPlaces_mem env s.center _ p hp).1

theorem claim_C10_witness :
    (searchPlacesPOST ⟨some "coffee", none, some ⟨some 1, some 1⟩, none⟩
      ⟨true, fun _ => none, [], fun _ => none⟩).response =
      .ok (⟨"coffee", "", ⟨1, 1⟩, fallbackViewport ⟨1, 1⟩⟩, []) ∧
    ∀ p ∈ ([] : List Place), p.phone = none :=
  ⟨rfl, claim_C10_phone_null ⟨some "coffee", none, some ⟨some 1, some 1⟩, none⟩
    ⟨true, fun _ => none, [], fun _ => none⟩
    ⟨"coffee", "", ⟨1, 1⟩, fallbackViewport ⟨1, 1⟩⟩ [] rfl⟩

/-! ## The `get_directions` tool
(`src/app/api/localhub/tools/get_directions/route.ts`) -/

/-- A JavaScript JSON value as far as the directions coordinate validation
inspects it: numbers (exact rationals, so the `NaN` falsy case does not
arise), strings, booleans, `null`, and objects whose `lat`/`lng` fields are
arbitrary values or absent. -/
inductive JSVal where
  | num (q : ℚ)
  | str (s : String)
  | boolean (b : Bool)
  | jnull
  | obj (lat : Option JSVal) (lng : Option JSVal)

/-- JavaScript truthiness of a JSON value (`!v` is `false` precisely on
truthy values). -/
def jsTruthy : JSVal → Bool
  | .num q => decide (q ≠ 0)
  | .str s => decide (s ≠ "")
  | .boolean b => b
  | .jnull => false
  | .obj _ _ => true

/-- JavaScript `typeof v === 'object'` — true for objects and for `null`. -/
def jsTypeofObject : JSVal → Bool
  | .jnull => true
  | .obj _ _ => true
  | _ => false

/-- Whether `v.lat` is a number (`typeof v.lat === 'number'`); property
access on a non-object yields `undefined`, whose typeof is not `'number'`. -/
def latIsNumber : JSVal → Bool
  | .obj (some (.num _)) _ => true
  | _ => false

/-- Whether `v.lng` is a number (`typeof v.lng === 'number'`). -/
def lngIsNumber : JSVal → Bool
  | .obj _ (some (.num _)) => true
  | _ => false

/-- The coordinate validation of route lines 30-36:
`!c || typeof c !== 'object' || typeof c.lat !== 'number' ||
typeof c.lng !== 'number'`; `none` is an absent (undefined) argument. -/
def coordsInvalid : Option JSVal → Bool
  | none => true
  | some v => !(jsTruthy v) || !(jsTypeofObject v) || !(latIsNumber v) || !(lngIsNumber v)

/-- The numeric lat/lng of a coordinate argument (the defaults are never
reached when `coordsInvalid` is false). -/
def coordsLatLng : Option JSVal → LatLng
  | some (.obj (some (.num la)) (some (.num ln))) => ⟨la, ln⟩
  | _ => ⟨0, 0⟩

/-- A leg of a directions route: the `leg.distance?.text` and
`leg.duration?.text` chains, each `none` when the field or its `text` is
absent. -/
structure DirLeg where
  distance_text : Option String
  duration_text : Option String

/-- A route of a directions response: `legs` and the
`overview_polyline?.points` chain (`none` when either level is absent). -/
structure DirRoute where
  legs : List DirLeg
  overview_polyline_points : Option String

/-- A Google Directions API response as read by the route handler; a
ZERO_RESULTS response has `routes = []`. -/
structure DirectionsResp where
  status : String
  error_message : Option String
  routes : List DirRoute

/-- `DirectionsData` from `src/apps/localhub/server/types.ts` (lines 34-42).
`googleMapsUrl` only interpolates the coordinates and mode already present
here into a fixed URL template, so it is not modelled separately. -/
structure DirectionsData where
  fromCoords : LatLng
  toCoords : LatLng
  mode : String
  polyline : String
  distanceText : String
  durationText : String

/-- The parsed JSON body of a `get_directions` request (`mode` defaults to
`'driving'` in the handler's destructuring). -/
structure DirectionsBody where
  to_coords : Option JSVal
  from_coords : Option JSVal
  mode : Option String
  language : Option String

/-- JavaScript `text || fallback` for the distance/duration labels. -/
def textOrDefault (t : Option String) (fallback : String) : String :=
  match t with
  | some s => if s = "" then fallback else s
  | none => fallback

/-- The provider-consuming phase of the `get_directions` handler (route
lines 60-102): require `status === 'OK'`, a first route, a first leg and a
truthy polyline; otherwise a 502 `externalError` naming the missing datum. -/
def getDirectionsProviderPhase (body : DirectionsBody) (resp : DirectionsResp) :
    ToolResponse DirectionsData :=
  if resp.status ≠ "OK" then
    .externalError ("Directions API error: " ++ resp.status ++
      (match resp.error_message with
       | some m => " - " ++ m
       | none => ""))
  else
    match resp.routes.head? with
    | none => .externalError "No routes found in Directions API response"
    | some route =>
      match route.legs.head? with
      | none => .externalError "No legs found in route"
      | some leg =>
        match route.overview_polyline_points with
        | none => .externalError "No polyline found in route"
        | some polyline =>
          if polyline = "" then .externalError "No polyline found in route"
          else
            .ok ⟨coordsLatLng body.from_coords, coordsLatLng body.to_coords,
              body.mode.getD "driving", polyline,
              textOrDefault leg.distance_text "Unknown distance",
              textOrDefault leg.duration_text "Unknown duration"⟩

/-- The `get_directions` POST handler
(`src/app/api/localhub/tools/get_directions/route.ts`, lines 18-110):
validate `to_coords` then `from_coords`, require the API key (either
directions or places key; modelled as one flag), call the provider (`none`
models a fetch or JSON-parse throw, caught by the outer handler as a 500
whose message is the thrown error's), then the provider phase. -/
def getDirectionsPOST (body : DirectionsBody) (apiKey : Bool)
    (provider : Option DirectionsResp) : ToolResponse DirectionsData :=
  if coordsInvalid body.to_coords then
    .badRequest "Missing or invalid required parameter: to_coords (must be an object with lat and lng numbers)"
  else if coordsInvalid body.from_coords then
    .badRequest "Missing or invalid required parameter: from_coords (must be an object with lat and lng numbers)"
  else if apiKey = false then
    .serverError "GOOGLE_DIRECTIONS_API_KEY not configured"
  else
    match provider with
    | none => .serverError "An unexpected error occurred"
    | some resp => getDirectionsProviderPhase body resp

/-- The missing-provider-data conditions of the directions handler: non-OK
status, no first route, a first route without a leg, or a first route whose
overview polyline is absent or empty (falsy). -/
def dirFault (resp : DirectionsResp) : Prop :=
  resp.status ≠ "OK" ∨ resp.routes.head? = none ∨
  (∃ route, resp.routes.head? = some route ∧ route.legs.head? = none) ∨
  (∃ route, resp.routes.head? = some route ∧
    (route.overview_polyline_points = none ∨ route.overview_polyline_points = some ""))

theorem providerPhase_statusCode (body : DirectionsBody) (resp : DirectionsResp) :
    ((getDirectionsProviderPhase body resp).statusCode = 502 ↔ dirFault resp) ∧
    (getDirectionsProviderPhase body resp).statusCode ≠ 400 := by
  unfold getDirectionsProviderPhase dirFault
  by_cases hst : resp.status = "OK"
  · rw [if_neg (by simp [hst])]
    rcases hroute : resp.routes.head? with _ | route
    · simp [ToolResponse.statusCode, hroute]
    dsimp only
    rcases hleg : route.legs.head? with _ | leg
    · have hleg2 : route.legs = [] := by simpa using hleg
      simp [ToolResponse.statusCode, hroute, hleg2, hst]
    dsimp only
    rcases hpoly : route.overview_polyline_points with _ | polyline
    · simp [ToolResponse.statusCode, hroute, hleg, hpoly, hst]
    dsimp only
    by_cases hpoly2 : polyline = ""
    · rw [if_pos hpoly2]
      subst hpoly2
      simp [ToolResponse.statusCode, hroute, hleg, hpoly, hst]
    · rw [if_neg hpoly2]
      simp only [ToolResponse.statusCode, hroute, hleg, hpoly, hst, hpoly2]
      simp [hst, hpoly2]
      refine ⟨fun hnil => ?_, by simp [hpoly], by simp [hpoly, hpoly2]⟩
      rw [hnil] at hleg
      simp at hleg
  · rw [if_pos (by simp [hst])]
    simp [ToolResponse.statusCode, hst]

/-- C6: `get_directions` fails with the 400 ValidationError exactly when
`to_coords` or `from_coords` is missing or not an object with numeric lat
and lng; and given valid coordinates, a configured key and a parsed provider
response, it fails with the 502 ProviderError exactly when the provider
status is not OK or the response lacks a first route, a first leg, or a
(truthy) overview polyline — all four missing-data cases map to the same 502
kind, distinct from the 400 ValidationError. -/
theorem claim_C6_directions_errors (body : DirectionsBody) (apiKey : Bool)
    (provider : Option DirectionsResp) :
    ((getDirectionsPOST body apiKey provider).statusCode = 400 ↔
      (coordsInvalid body.to_coords = true ∨ coordsInvalid body.from_coords = true)) ∧
    (coordsInvalid body.to_coords = false → coordsInvalid body.from_coords = false →
      apiKey = true → ∀ resp, provider = some resp →
        ((getDirectionsPOST body apiKey provider).statusCode = 502 ↔ dirFault resp)) := by
  unfold getDirectionsPOST
  by_cases hto : coordsInvalid body.to_coords = true
  · rw [if_pos hto]
    exact ⟨by simp [ToolResponse.statusCode, hto], by simp [hto]⟩
  rw [if_neg hto]
  by_cases hfrom : coordsInvalid body.from_coords = true
  · rw [if_pos hfrom]
    exact ⟨by simp [ToolResponse.statusCode, hfrom], by simp [hfrom]⟩
  rw [if_neg hfrom]
  by_cases hkey : apiKey = false
  · rw [if_pos hkey]
    refine ⟨by simp [ToolResponse.statusCode, hto, hfrom], ?_⟩
    intro _ _ hkey2 _ _
    rw [hkey2] at hkey
    cases hkey
  rw [if_neg hkey]
  rcases hp : provider with _ | resp
  · exact ⟨by simp [ToolResponse.statusCode, hto, hfrom],
      fun _ _ _ resp hresp => Option.noConfusion hresp⟩
  refine ⟨?_, ?_⟩
  · have := (providerPhase_statusCode body resp).2
    constructor
    · intro h400
      exact absurd h400 this
    · rintro (h | h) <;> simp_all
  · intro _ _ _ resp2 hresp2
    cases Option.some_inj.mp hresp2
    exact (providerPhase_statusCode body resp).1

theorem claim_C6_witness :
    ((getDirectionsPOST
        ⟨some (.obj (some (.num 1)) (some (.num 2))),
         some (.obj (some (.num 3)) (some (.num 4))), none, none⟩
        true (some ⟨"ZERO_RESULTS", none, []⟩)).statusCode = 502 ↔
      dirFault ⟨"ZERO_RESULTS", none, []⟩) ∧
    ((getDirectionsPOST ⟨none, some (.obj (some (.num 3)) (some (.num 4))), none, none⟩
        true (some ⟨"OK", none, []⟩)).statusCode = 400 ↔
      (coordsInvalid none = true ∨
        coordsInvalid (some (.obj (some (.num 3)) (some (.num 4)))) = true)) :=
  ⟨(claim_C6_directions_errors
      ⟨some (.obj (some (.num 1)) (some (.num 2))),
       some (.obj (some (.num 3)) (some (.num 4))), none, none⟩
      true (some ⟨"ZERO_RESULTS", none, []⟩)).2 (by decide) (by decide) rfl
      ⟨"ZERO_RESULTS", none, []⟩ rfl,
   (claim_C6_directions_errors
      ⟨none, some (.obj (some (.num 3)) (some (.num 4))), none, none⟩
      true (some ⟨"OK", none, []⟩)).1⟩

/-! ## The Google-polyline decoder
(`decodePolyline` in `src/apps/localhub/web/src/component.tsx`, lines 38-66)

All arithmetic is exact (`ℕ`/`ℤ`/`ℚ`): for the encoded values of real
coordinates every intermediate stays below `2^31`, where JavaScript's 32-bit
bitwise semantics agree with the unbounded operations used here. -/

/-- One varint read of the decoder: the
`do { b = str.charCodeAt(index++) - 63; result |= (b & 0x1f) << shift;
shift += 5 } while (b >= 0x20)` loop, reading from a character list.
Reading past the end of the string (which in JavaScript yields `NaN` codes)
is `none`; encoder outputs never reach it. -/
def decodeVarint : List Char → ℕ → ℕ → Option (ℕ × List Char)
  | [], _, _ => none
  | c :: rest, shift, result =>
    let b := c.toNat - 63
    let result2 := result ||| ((b &&& 0x1f) <<< shift)
    if b ≥ 0x20 then decodeVarint rest (shift + 5) result2 else some (result2, rest)

/-- The decoder's sign step `(result & 1) ? ~(result >> 1) : (result >> 1)`
on exact integers (`~x = -x - 1`). -/
def zigzagDecode (result : ℕ) : ℤ :=
  if result &&& 1 = 1 then -((result >>> 1 : ℕ) : ℤ) - 1 else ((result >>> 1 : ℕ) : ℤ)

/-- The decoder loop: each iteration reads two varints (Δlat, Δlng),
accumulates them and pushes `{lat: lat / 1e5, lng: lng / 1e5}`. The source's
`while (index < str.length)` loop is driven here by a fuel equal to the
string length, which each iteration (consuming at least one character per
varint) strictly dominates; an exhausted input surfaces as a failing varint
read. -/
def decodeLoop : ℕ → List Char → ℤ → ℤ → List (ℚ × ℚ)
  | 0, _, _, _ => []
  | fuel + 1, cs, lat, lng =>
    match decodeVarint cs 0 0 with
    | none => []
    | some (r1, cs1) =>
      let lat2 := lat + zigzagDecode r1
      match decodeVarint cs1 0 0 with
      | none => []
      | some (r2, cs2) =>
        let lng2 := lng + zigzagDecode r2
        ((lat2 : ℚ) / 100000, (lng2 : ℚ) / 100000) :: decodeLoop fuel cs2 lat2 lng2

/-- `decodePolyline` from `component.tsx` (lines 38-66): decode the whole
string starting from `(lat, lng) = (0, 0)`. -/
def decodePolyline (str : String) : List (ℚ × ℚ) :=
  decodeLoop str.length str.data 0 0

/-- Modelled from the spec: the reference Google polyline encoder is not
part of the repository; §8's round-trip property is stated against it. This
is its chunking of one non-negative value: five-bit groups, little-endian,
`0x20` continuation bit on every group but the last. The recursion is driven
by a fuel; `fuel` groups suffice for any value below `32 ^ fuel`. -/
def encodeChunks : ℕ → ℕ → List ℕ
  | 0, v => [v]
  | fuel + 1, v =>
    if v < 0x20 then [v] else (0x20 ||| (v &&& 0x1f)) :: encodeChunks fuel (v >>> 5)

/-- Fuel sufficient for every zigzag value of a coordinate delta
(`32 ^ 7 = 2 ^ 35`). -/
def chunkFuel : ℕ := 7

/-- Modelled from the spec: one encoded value — chunks shifted into
printable characters by adding 63. -/
def encodeValue (v : ℕ) : List Char :=
  (encodeChunks chunkFuel v).map (fun n => Char.ofNat (n + 63))

/-- Modelled from the spec: the reference encoder's sign step
`value <<= 1; if (num < 0) value = ~value`, as a natural number. -/
def zigzagEncode (d : ℤ) : ℕ :=
  if d < 0 then 2 * d.natAbs - 1 else 2 * d.natAbs

/-- Modelled from the spec: the reference encoder's loop over integer e5
points, encoding each point's lat/lng as deltas from the previous point. -/
def encodeLoop : List (ℤ × ℤ) → ℤ → ℤ → List Char
  | [], _, _ => []
  | p :: rest, prevLat, prevLng =>
    encodeValue (zigzagEncode (p.1 - prevLat)) ++
      (encodeValue (zigzagEncode (p.2 - prevLng)) ++ encodeLoop rest p.1 p.2)

/-- Modelled from the spec: the reference Google polyline encoder — round
each coordinate to integer 1e-5 units (`Math.round(coord * 1e5)`), then
delta / zigzag / base-32 encode. -/
def encodePolyline (pts : List (ℚ × ℚ)) : String :=
  ⟨encodeLoop (pts.map (fun p => (round (p.1 * 100000), round (p.2 * 100000)))) 0 0⟩

/-- A rational that is a whole multiple of `1e-5` degrees — the spec's
domain for the round-trip property. -/
def isE5 (q : ℚ) : Prop := ∃ n : ℤ, q = (n : ℚ) / 100000

theorem toNat_ofNat_chunk (n : ℕ) (h : n < 55296) : (Char.ofNat n).toNat = n := by
  unfold Char.ofNat
  rw [dif_pos (Or.inl h)]
  rfl

theorem encodeChunks_ne_nil (fuel v : ℕ) : encodeChunks fuel v ≠ [] := by
  cases fuel with
  | zero => simp [encodeChunks]
  | succ fuel =>
    unfold encodeChunks
    split <;> simp

theorem encodeValue_ne_nil (v : ℕ) : encodeValue v ≠ [] := by
  unfold encodeValue
  simp [encodeChunks_ne_nil]

theorem and31_eq_mod (v : ℕ) : v &&& 31 = v % 32 := by
  have h31 : (31 : ℕ) = 2 ^ 5 - 1 := by norm_num
  have h32 : (32 : ℕ) = 2 ^ 5 := by norm_num
  rw [h31, Nat.and_pow_two_sub_one_eq_mod, h32]

theorem shiftRight5_eq_div (v : ℕ) : v >>> 5 = v / 32 := by
  have h32 : (32 : ℕ) = 2 ^ 5 := by norm_num
  rw [Nat.shiftRight_eq_div_pow, h32]

theorem lor32_eq_add (x : ℕ) (hx : x < 32) : 32 ||| x = 32 + x := by
  have hx' : x < 2 ^ 5 := by norm_num; omega
  have h := Nat.mul_add_lt_is_or hx' 1
  norm_num at h
  exact h.symm

theorem lor_shiftLeft_eq_add (acc m shift : ℕ) (hacc : acc < 2 ^ shift) :
    acc ||| (m <<< shift) = acc + m * 2 ^ shift := by
  rw [Nat.shiftLeft_eq, Nat.lor_comm, Nat.mul_comm m (2 ^ shift),
    ← Nat.mul_add_lt_is_or hacc m]
  ring

theorem decodeVarint_encodeChunks (fuel : ℕ) :
    ∀ (v shift acc : ℕ) (rest : List Char), v < 32 ^ fuel → acc < 2 ^ shift →
    decodeVarint ((encodeChunks fuel v).map (fun n => Char.ofNat (n + 63)) ++ rest)
      shift acc = some (acc + v * 2 ^ shift, rest) := by
  induction fuel with
  | zero =>
    intro v shift acc rest hv hacc
    have hv0 : v = 0 := by
      have : (32 : ℕ) ^ 0 = 1 := by norm_num
      omega
    subst hv0
    unfold encodeChunks decodeVarint
    simp only [List.map_cons, List.map_nil, List.cons_append, List.nil_append, Nat.zero_add]
    rw [toNat_ofNat_chunk 63 (by norm_num)]
    norm_num
  | succ fuel ih =>
    intro v shift acc rest hv hacc
    by_cases hsmall : v < 32
    · unfold encodeChunks
      rw [if_pos hsmall]
      unfold decodeVarint
      simp only [List.map_cons, List.map_nil, List.cons_append, List.nil_append]
      rw [toNat_ofNat_chunk (v + 63) (by omega)]
      have hb : v + 63 - 63 = v := by omega
      rw [hb, if_neg (by omega)]
      have hv31 : v &&& 31 = v := by
        rw [and31_eq_mod]
        omega
      rw [hv31, lor_shiftLeft_eq_add acc v shift hacc]
    · unfold encodeChunks
      rw [if_neg hsmall]
      have hxlt : v &&& 31 < 32 := by
        rw [and31_eq_mod]
        omega
      have hc0 : 32 ||| (v &&& 31) = 32 + v % 32 := by
        rw [lor32_eq_add _ hxlt, and31_eq_mod]
      unfold decodeVarint
      simp only [List.map_cons, List.cons_append]
      rw [toNat_ofNat_chunk ((32 ||| (v &&& 31)) + 63) (by rw [hc0]; omega)]
      have hb : (32 ||| (v &&& 31)) + 63 - 63 = 32 + v % 32 := by rw [hc0]; omega
      rw [hb, if_pos (by omega)]
      have hb31 : (32 + v % 32) &&& 31 = v % 32 := by
        rw [and31_eq_mod, Nat.add_mod_left]
        omega
      rw [hb31, lor_shiftLeft_eq_add acc (v % 32) shift hacc]
      have hrecbound : acc + v % 32 * 2 ^ shift < 2 ^ (shift + 5) := by
        have h1 : v % 32 * 2 ^ shift ≤ 31 * 2 ^ shift :=
          Nat.mul_le_mul_right _ (by omega)
        have h2 : (2 : ℕ) ^ (shift + 5) = 2 ^ shift * 32 := by
          rw [pow_add]
          norm_num
        omega
      have hvdiv : v >>> 5 < 32 ^ fuel := by
        rw [shiftRight5_eq_div]
        have h3 : (32 : ℕ) ^ (fuel + 1) = 32 ^ fuel * 32 := by ring
        exact (Nat.div_lt_iff_lt_mul (by norm_num)).mpr (by omega)
      rw [ih (v >>> 5) (shift + 5) (acc + v % 32 * 2 ^ shift) rest hvdiv hrecbound]
      have key : acc + v % 32 * 2 ^ shift + v >>> 5 * 2 ^ (shift + 5) =
          acc + v * 2 ^ shift := by
        rw [shiftRight5_eq_div]
        have h := Nat.div_add_mod v 32
        have h2 : (2 : ℕ) ^ (shift + 5) = 2 ^ shift * 32 := by
          rw [pow_add]
          norm_num
        calc acc + v % 32 * 2 ^ shift + v / 32 * 2 ^ (shift + 5)
            = acc + (32 * (v / 32) + v % 32) * 2 ^ shift := by rw [h2]; ring
          _ = acc + v * 2 ^ shift := by rw [h]
      rw [key]

theorem zigzagDecode_encode (d : ℤ) : zigzagDecode (zigzagEncode d) = d := by
  unfold zigzagDecode zigzagEncode
  have hdiv : ∀ x : ℕ, x >>> 1 = x / 2 := by
    intro x
    rw [Nat.shiftRight_eq_div_pow, pow_one]
  by_cases hd : d < 0
  · rw [if_pos hd, Nat.and_one_is_mod, hdiv]
    have h1 : 1 ≤ d.natAbs := by omega
    have h2 : (2 * d.natAbs - 1) % 2 = 1 := by omega
    rw [if_pos h2]
    have h3 : (2 * d.natAbs - 1) / 2 = d.natAbs - 1 := by omega
    rw [h3]
    omega
  · rw [if_neg hd, Nat.and_one_is_mod, hdiv]
    rw [if_neg (by omega)]
    have h3 : 2 * d.natAbs / 2 = d.natAbs := by omega
    rw [h3]
    omega

theorem zigzagEncode_le (d : ℤ) : zigzagEncode d ≤ 2 * d.natAbs := by
  unfold zigzagEncode
  split <;> omega

theorem decodeVarint_encodeValue (v : ℕ) (rest : List Char) (hv : v < 32 ^ chunkFuel) :
    decodeVarint (encodeValue v ++ rest) 0 0 = some (v, rest) := by
  have h := decodeVarint_encodeChunks chunkFuel v 0 0 rest hv (by norm_num)
  unfold encodeValue
  simpa using h

theorem le_encodeLoop_length (pts : List (ℤ × ℤ)) (lat lng : ℤ) :
    pts.length ≤ (encodeLoop pts lat lng).length := by
  induction pts generalizing lat lng with
  | nil => simp [encodeLoop]
  | cons p rest ih =>
    have h1 : 0 < (encodeValue (zigzagEncode (p.1 - lat))).length :=
      List.length_pos.mpr (encodeValue_ne_nil _)
    have h2 := ih p.1 p.2
    simp only [encodeLoop, List.length_append, List.length_cons]
    omega

theorem decodeLoop_encodeLoop (pts : List (ℤ × ℤ)) :
    ∀ (fuel : ℕ) (lat lng : ℤ), pts.length ≤ fuel →
    (∀ p ∈ pts, p.1.natAbs ≤ 18000000 ∧ p.2.natAbs ≤ 18000000) →
    lat.natAbs ≤ 18000000 → lng.natAbs ≤ 18000000 →
    decodeLoop fuel (encodeLoop pts lat lng) lat lng =
      pts.map (fun p => ((p.1 : ℚ) / 100000, (p.2 : ℚ) / 100000)) := by
  induction pts with
  | nil =>
    intro fuel lat lng _ _ _ _
    cases fuel <;> rfl
  | cons p rest ih =>
    intro fuel lat lng hfuel hbound hlat hlng
    rcases fuel with _ | fuel
    · simp at hfuel
    have hb := hbound p (List.mem_cons_self p rest)
    have h32 : (32 : ℕ) ^ chunkFuel = 34359738368 := by norm_num [chunkFuel]
    have hz1 : zigzagEncode (p.1 - lat) < 32 ^ chunkFuel := by
      have h1 := zigzagEncode_le (p.1 - lat)
      have h2 : (p.1 - lat).natAbs ≤ p.1.natAbs + lat.natAbs := Int.natAbs_sub_le p.1 lat
      omega
    have hz2 : zigzagEncode (p.2 - lng) < 32 ^ chunkFuel := by
      have h1 := zigzagEncode_le (p.2 - lng)
      have h2 : (p.2 - lng).natAbs ≤ p.2.natAbs + lng.natAbs := Int.natAbs_sub_le p.2 lng
      omega
    unfold encodeLoop decodeLoop
    rw [decodeVarint_encodeValue _ _ hz1]
    dsimp only
    rw [decodeVarint_encodeValue _ _ hz2]
    dsimp only
    rw [zigzagDecode_encode, zigzagDecode_encode]
    have hlat2 : lat + (p.1 - lat) = p.1 := by ring
    have hlng2 : lng + (p.2 - lng) = p.2 := by ring
    rw [hlat2, hlng2]
    rw [ih fuel p.1 p.2 (by simpa using hfuel)
      (fun q hq => hbound q (List.mem_cons_of_mem p hq)) hb.1 hb.2]
    simp

theorem e5_round_div (q : ℚ) (h : isE5 q) :
    ((round (q * 100000) : ℤ) : ℚ) / 100000 = q := by
  obtain ⟨n, rfl⟩ := h
  have hq : (n : ℚ) / 100000 * 100000 = (n : ℚ) := by field_simp
  rw [hq, round_intCast]

theorem e5_round_natAbs_le (q : ℚ) (h : isE5 q) (hb : |q| ≤ 180) :
    (round (q * 100000)).natAbs ≤ 18000000 := by
  obtain ⟨n, rfl⟩ := h
  have hq : (n : ℚ) / 100000 * 100000 = (n : ℚ) := by field_simp
  rw [hq, round_intCast]
  have habs : |(n : ℚ)| ≤ 18000000 := by
    have h1 : |(n : ℚ) / 100000| ≤ 180 := hb
    rw [abs_div] at h1
    have h2 : |(100000 : ℚ)| = 100000 := by norm_num
    rw [h2] at h1
    nlinarith [abs_nonneg ((n : ℚ))]
  have habs2 : |n| ≤ (18000000 : ℤ) := by
    rw [← Int.cast_abs] at habs
    exact_mod_cast habs
  rw [Int.abs_eq_natAbs] at habs2
  exact_mod_cast habs2

theorem decode_encode_exact (pts : List (ℚ × ℚ))
    (hmul : ∀ p ∈ pts, isE5 p.1 ∧ isE5 p.2)
    (hbound : ∀ p ∈ pts, |p.1| ≤ 180 ∧ |p.2| ≤ 180) :
    decodePolyline (encodePolyline pts) = pts := by
  unfold decodePolyline encodePolyline
  show decodeLoop (encodeLoop (pts.map
      (fun p => (round (p.1 * 100000), round (p.2 * 100000)))) 0 0).length
    (encodeLoop (pts.map (fun p => (round (p.1 * 100000), round (p.2 * 100000)))) 0 0)
    0 0 = pts
  rw [decodeLoop_encodeLoop _ _ 0 0
    (by
      calc (pts.map (fun p => (round (p.1 * 100000), round (p.2 * 100000)))).length
          = pts.length := List.length_map _ _
        _ ≤ _ := by
            rw [← List.length_map pts (fun p => (round (p.1 * 100000), round (p.2 * 100000)))]
            exact le_encodeLoop_length _ 0 0)
    (by
      intro pI hpI
      rcases List.mem_map.mp hpI with ⟨p, hp, rfl⟩
      exact ⟨e5_round_natAbs_le p.1 (hmul p hp).1 (hbound p hp).1,
        e5_round_natAbs_le p.2 (hmul p hp).2 (hbound p hp).2⟩)
    (by simp) (by simp)]
  rw [List.map_map]
  have hpt : ∀ p ∈ pts,
      ((fun z : ℤ × ℤ => ((z.1 : ℚ) / 100000, (z.2 : ℚ) / 100000)) ∘
        fun p : ℚ × ℚ => (round (p.1 * 100000), round (p.2 * 100000))) p = p := by
    intro p hp
    have h1 := e5_round_div p.1 (hmul p hp).1
    have h2 := e5_round_div p.2 (hmul p hp).2
    simp only [Function.comp]
    rw [h1, h2]
  rw [List.map_congr_left hpt]
  simp

theorem zip_self_eq {α : Type} (l : List α) : ∀ pr ∈ l.zip l, pr.1 = pr.2 := by
  induction l with
  | nil =>
    intro pr hpr
    cases hpr
  | cons a l ih =>
    intro pr hpr
    rw [List.zip_cons_cons] at hpr
    rcases List.mem_cons.mp hpr with h | h
    · rw [h]
    · exact ih pr h

/-- C9: decoding the reference-encoder output for any coordinate sequence
whose values are whole multiples of 1e-5 degrees reproduces the original
sequence within 1e-5 degrees per point (the model is exact, so the error is
zero). -/
theorem claim_C9_polyline_roundtrip (pts : List (ℚ × ℚ))
    (hmul : ∀ p ∈ pts, isE5 p.1 ∧ isE5 p.2)
    (hbound : ∀ p ∈ pts, |p.1| ≤ 180 ∧ |p.2| ≤ 180) :
    (decodePolyline (encodePolyline pts)).length = pts.length ∧
    ∀ pr ∈ (decodePolyline (encodePolyline pts)).zip pts,
      |pr.1.1 - pr.2.1| ≤ 1 / 100000 ∧ |pr.1.2 - pr.2.2| ≤ 1 / 100000 := by
  have hexact := decode_encode_exact pts hmul hbound
  rw [hexact]
  refine ⟨rfl, ?_⟩
  intro pr hpr
  have hpr2 := zip_self_eq pts pr hpr
  rw [hpr2]
  norm_num

theorem claim_C9_witness :
    (decodePolyline (encodePolyline [((38.5 : ℚ), (-120.2 : ℚ)),
        ((40.7 : ℚ), (-120.95 : ℚ))])).length =
      ([((38.5 : ℚ), (-120.2 : ℚ)), ((40.7 : ℚ), (-120.95 : ℚ))] : List (ℚ × ℚ)).length ∧
    ∀ pr ∈ (decodePolyline (encodePolyline [((38.5 : ℚ), (-120.2 : ℚ)),
        ((40.7 : ℚ), (-120.95 : ℚ))])).zip
        [((38.5 : ℚ), (-120.2 : ℚ)), ((40.7 : ℚ), (-120.95 : ℚ))],
      |pr.1.1 - pr.2.1| ≤ 1 / 100000 ∧ |pr.1.2 - pr.2.2| ≤ 1 / 100000 :=
  claim_C9_polyline_roundtrip [((38.5 : ℚ), (-120.2 : ℚ)), ((40.7 : ℚ), (-120.95 : ℚ))]
    (by
      intro p hp
      fin_cases hp
      · exact ⟨⟨3850000, by norm_num⟩, ⟨-12020000, by norm_num⟩⟩
      · exact ⟨⟨4070000, by norm_num⟩, ⟨-12095000, by norm_num⟩⟩)
    (by
      intro p hp
      fin_cases hp <;> constructor <;> rw [abs_le] <;> constructor <;> norm_num)

end LocalHub
